import Mathlib

/-!
Verification of the coefficient model of FrisPy (`src/frispy/model.py`).

The Python module defines a dataclass `Model` holding 11 aerodynamic
parameters (floats) and five pure coefficient functions `C_lift`, `C_drag`,
`C_x`, `C_y`, `C_z`, plus nine preset subclasses (`JankieModel` ..
`QuarterModel`) that override only the field defaults `PL0, PLa, PD0,
PTy0, PTya` and inherit everything else.

Floats are idealised as real numbers; each preset subclass is embedded as a
`Model` value obtained from the default parameter record by overriding
exactly the fields the subclass redeclares (Python dataclass inheritance
changes only field defaults, never the methods).  The Python default
`alpha_0 = 4 * np.pi / 180` uses the double-precision constant `np.pi`,
rendered here by its decimal value.
-/

namespace FrisPy

/-- Coefficient model for a disc: the 11 aerodynamic parameters of
`frispy.model.Model`. -/
structure Model where
  PL0 : ℝ
  PLa : ℝ
  PD0 : ℝ
  PDa : ℝ
  PTxwx : ℝ
  PTxwz : ℝ
  PTy0 : ℝ
  PTya : ℝ
  PTywy : ℝ
  PTzwz : ℝ
  alpha_0 : ℝ

/-- The default parameter values of the `Model` dataclass
(`model.py` lines 18-28). -/
noncomputable def Model.default : Model where
  PL0 := 0.33
  PLa := 1.9
  PD0 := 0.18
  PDa := 0.69
  PTxwx := -0.013
  PTxwz := -0.0017
  PTy0 := -0.082
  PTya := 0.43
  PTywy := -0.014
  PTzwz := -0.000034
  alpha_0 := 4 * 3.141592653589793 / 180

/-- Lift force scale factor, linear in the angle of attack
(`Model.C_lift`): `PL0 + PLa * alpha`. -/
noncomputable def Model.C_lift (m : Model) (alpha : ℝ) : ℝ :=
  m.PL0 + m.PLa * alpha

/-- Drag force scale factor, quadratic in the angle of attack
(`Model.C_drag`): `PD0 + PDa * (alpha - alpha_0) ** 2`. -/
noncomputable def Model.C_drag (m : Model) (alpha : ℝ) : ℝ :=
  m.PD0 + m.PDa * (alpha - m.alpha_0) ^ 2

/-- The x-torque scale factor (`Model.C_x`): `PTxwx * wx + PTxwz * wz`. -/
noncomputable def Model.C_x (m : Model) (wx wz : ℝ) : ℝ :=
  m.PTxwx * wx + m.PTxwz * wz

/-- The y-torque scale factor (`Model.C_y`):
`PTy0 + PTywy * wy + PTya * alpha`. -/
noncomputable def Model.C_y (m : Model) (alpha wy : ℝ) : ℝ :=
  m.PTy0 + m.PTywy * wy + m.PTya * alpha

/-- The z-torque scale factor (`Model.C_z`): `PTzwz * wz`. -/
noncomputable def Model.C_z (m : Model) (wz : ℝ) : ℝ :=
  m.PTzwz * wz

/-- `JankieModel`: overrides `PL0, PLa, PD0, PTy0, PTya`, inherits the rest. -/
noncomputable def JankieModel : Model :=
  { Model.default with
    PL0 := 999, PLa := 999, PD0 := 999, PTy0 := -999, PTya := 999 }

/-- `HummelModel`: overrides `PL0, PLa, PD0, PTy0, PTya` (with the default
values themselves), inherits the rest. -/
noncomputable def HummelModel : Model :=
  { Model.default with
    PL0 := 0.33, PLa := 1.9, PD0 := 0.18, PTy0 := -0.082, PTya := 0.43 }

/-- `AviarModel`: overrides `PL0, PLa, PD0, PTy0, PTya`, inherits the rest. -/
noncomputable def AviarModel : Model :=
  { Model.default with
    PL0 := 0.152, PLa := 0.044, PD0 := 0.083, PTy0 := -0.018, PTya := 0.002 }

/-- `BuzzModel`: overrides `PL0, PLa, PD0, PTy0, PTya`, inherits the rest. -/
noncomputable def BuzzModel : Model :=
  { Model.default with
    PL0 := 0.099, PLa := 0.041, PD0 := 0.061, PTy0 := -0.033, PTya := 0.004 }

/-- `RocModel`: overrides `PL0, PLa, PD0, PTy0, PTya`, inherits the rest. -/
noncomputable def RocModel : Model :=
  { Model.default with
    PL0 := 0.053, PLa := 0.043, PD0 := 0.067, PTy0 := -0.015, PTya := 0.003 }

/-- `FlickModel`: overrides `PL0, PLa, PD0, PTy0, PTya`, inherits the rest. -/
noncomputable def FlickModel : Model :=
  { Model.default with
    PL0 := 0.100, PLa := 0.038, PD0 := 0.076, PTy0 := -0.007, PTya := 0.008 }

/-- `StormModel`: overrides `PL0, PLa, PD0, PTy0, PTya`, inherits the rest. -/
noncomputable def StormModel : Model :=
  { Model.default with
    PL0 := 0.107, PLa := 0.045, PD0 := 0.057, PTy0 := -0.026, PTya := 0.004 }

/-- `WraithModel`: overrides `PL0, PLa, PD0, PTy0, PTya`, inherits the rest. -/
noncomputable def WraithModel : Model :=
  { Model.default with
    PL0 := 0.143, PLa := 0.040, PD0 := 0.055, PTy0 := -0.020, PTya := 0.006 }

/-- `QuarterModel`: overrides `PL0, PLa, PD0, PTy0, PTya`, inherits the rest. -/
noncomputable def QuarterModel : Model :=
  { Model.default with
    PL0 := 0.138, PLa := 0.039, PD0 := 0.065, PTy0 := -0.038, PTya := 0.005 }

/-- The nine named preset models of `model.py` lines 100-162, in source
order. -/
noncomputable def presetModels : List Model :=
  [JankieModel, HummelModel, AviarModel, BuzzModel, RocModel,
   FlickModel, StormModel, WraithModel, QuarterModel]

/-- A model with a negative quadratic drag parameter `PDa`.  The `Model`
dataclass accepts arbitrary float parameters, so this is a legal instance. -/
noncomputable def negPDaModel : Model :=
  { Model.default with PDa := -1 }

end FrisPy

namespace FrisPy

/-- Claim C1: for every model instance and every real angle of attack
`alpha`, `C_drag` returns exactly `PD0 + PDa * (alpha - alpha_0) ^ 2`. -/
theorem C_drag_formula (m : Model) (alpha : ℝ) :
    m.C_drag alpha = m.PD0 + m.PDa * (alpha - m.alpha_0) ^ 2 := rfl

/-- Claim C3: for every model instance and every real angle of attack
`alpha`, `C_lift` returns exactly `PL0 + PLa * alpha`: affine in `alpha`
with intercept `PL0` and slope `PLa`. -/
theorem C_lift_formula (m : Model) (alpha : ℝ) :
    m.C_lift alpha = m.PL0 + m.PLa * alpha := rfl

/-- Claim C4: for every model instance and all real `alpha` and `wy`,
`C_y` returns exactly `PTy0 + PTywy * wy + PTya * alpha`. -/
theorem C_y_formula (m : Model) (alpha wy : ℝ) :
    m.C_y alpha wy = m.PTy0 + m.PTywy * wy + m.PTya * alpha := rfl

/-- Claim C5: for every model instance and all real `wx` and `wz`,
`C_x` returns exactly `PTxwx * wx + PTxwz * wz`, a zero-intercept linear
combination of the two angular velocities. -/
theorem C_x_formula (m : Model) (wx wz : ℝ) :
    m.C_x wx wz = m.PTxwx * wx + m.PTxwz * wz := rfl

/-- Claim C2, counterexample: the claim quantifies over every model
instance, but the dataclass accepts arbitrary parameters; for the concrete
instance with `PDa = -1` (all other parameters default), the drag
coefficient is not minimized at `alpha_0`: it strictly decreases one radian
away. -/
theorem C_drag_not_min_for_negPDa :
    ¬ negPDaModel.C_drag negPDaModel.alpha_0 ≤
        negPDaModel.C_drag (negPDaModel.alpha_0 + 1) := by
  simp only [Model.C_drag, negPDaModel, Model.default]
  norm_num

/-- Claim C2, amended: for every model instance whose quadratic drag
parameter `PDa` is positive (as it is in the default model and in every
preset, none of which overrides `PDa = 0.69`), `C_drag` is minimized at
`alpha = alpha_0` and grows without bound: every bound `M` is exceeded at
some angle of attack. -/
theorem C_drag_min_and_unbounded (m : Model) (hPDa : 0 < m.PDa) :
    (∀ ε : ℝ, m.C_drag m.alpha_0 ≤ m.C_drag (m.alpha_0 + ε)) ∧
      (∀ M : ℝ, ∃ alpha : ℝ, M < m.C_drag alpha) := by
  constructor
  · intro ε
    simp only [Model.C_drag]
    nlinarith [sq_nonneg ε, hPDa.le]
  · intro M
    set c : ℝ := max 1 ((M - m.PD0 + 1) / m.PDa) with hc
    refine ⟨m.alpha_0 + c, ?_⟩
    have h1 : (1 : ℝ) ≤ c := le_max_left _ _
    have h2 : (M - m.PD0 + 1) / m.PDa ≤ c := le_max_right _ _
    have hcsq : c ≤ c ^ 2 := by nlinarith
    have hkey : M - m.PD0 + 1 ≤ m.PDa * c := by
      have := (div_le_iff₀ hPDa).mp h2
      linarith
    have hmul : m.PDa * c ≤ m.PDa * c ^ 2 := by nlinarith
    simp only [Model.C_drag]
    have : (m.alpha_0 + c - m.alpha_0) ^ 2 = c ^ 2 := by ring
    rw [this]
    linarith

/-- Claim C2, witness: the amended theorem applied to the default model,
whose `PDa = 0.69` is positive. -/
theorem C_drag_min_and_unbounded_default :
    (0 : ℝ) < Model.default.PDa ∧
      ((∀ ε : ℝ,
          Model.default.C_drag Model.default.alpha_0 ≤
            Model.default.C_drag (Model.default.alpha_0 + ε)) ∧
        (∀ M : ℝ, ∃ alpha : ℝ, M < Model.default.C_drag alpha)) :=
  ⟨by norm_num [Model.default],
    C_drag_min_and_unbounded Model.default (by norm_num [Model.default])⟩

/-- Claim C6: for every model instance and every real `wz`, `C_z` returns
exactly `PTzwz * wz` (so `C_z 0 = 0`); the default parameter `PTzwz` is a
small negative number (between `-0.0001` and `0`), so for the default model
`C_z wz` has sign opposite to `wz` whenever `wz ≠ 0`. -/
theorem C_z_spec :
    (∀ (m : Model) (wz : ℝ), m.C_z wz = m.PTzwz * wz) ∧
      (∀ m : Model, m.C_z 0 = 0) ∧
      (-0.0001 < Model.default.PTzwz ∧ Model.default.PTzwz < 0) ∧
      (∀ wz : ℝ, wz ≠ 0 →
        (0 < wz → Model.default.C_z wz < 0) ∧
          (wz < 0 → 0 < Model.default.C_z wz)) := by
  refine ⟨fun m wz => rfl, fun m => by simp [Model.C_z],
    by norm_num [Model.default], fun wz hwz => ⟨fun hpos => ?_, fun hneg => ?_⟩⟩
  · have hP : Model.default.PTzwz < 0 := by norm_num [Model.default]
    simpa [Model.C_z] using mul_neg_of_neg_of_pos hP hpos
  · have hP : Model.default.PTzwz < 0 := by norm_num [Model.default]
    simpa [Model.C_z] using mul_pos_of_neg_of_neg hP hneg

/-- Claim C6, witness: the final conjunct of the spin-down theorem applied
to the concrete angular velocities `1` and `-1`. -/
theorem C_z_spec_at_one :
    Model.default.C_z 1 < 0 ∧ 0 < Model.default.C_z (-1) :=
  ⟨(C_z_spec.2.2.2 1 (by norm_num)).1 (by norm_num),
    (C_z_spec.2.2.2 (-1) (by norm_num)).2 (by norm_num)⟩

/-- Claim C7: every named preset model has exactly the base `Model`
coefficient-function behaviour: for each preset and all inputs, its
`C_lift`, `C_drag`, `C_x`, `C_y`, `C_z` equal the base formulas evaluated
at that preset's own parameter values.  (In the source the subclasses
declare only field defaults and inherit every method unchanged.) -/
theorem presets_use_base_formulas :
    ∀ p ∈ presetModels, ∀ alpha wx wy wz : ℝ,
      p.C_lift alpha = p.PL0 + p.PLa * alpha ∧
        p.C_drag alpha = p.PD0 + p.PDa * (alpha - p.alpha_0) ^ 2 ∧
        p.C_x wx wz = p.PTxwx * wx + p.PTxwz * wz ∧
        p.C_y alpha wy = p.PTy0 + p.PTywy * wy + p.PTya * alpha ∧
        p.C_z wz = p.PTzwz * wz :=
  fun _ _ _ _ _ _ => ⟨rfl, rfl, rfl, rfl, rfl⟩

/-- Claim C7, witness: the theorem applied to `AviarModel` (a member of
the preset list) at concrete inputs. -/
theorem presets_use_base_formulas_aviar :
    AviarModel.C_lift 1 = AviarModel.PL0 + AviarModel.PLa * 1 ∧
      AviarModel.C_drag 1 =
        AviarModel.PD0 + AviarModel.PDa * (1 - AviarModel.alpha_0) ^ 2 ∧
      AviarModel.C_x 2 3 = AviarModel.PTxwx * 2 + AviarModel.PTxwz * 3 ∧
      AviarModel.C_y 1 2 =
        AviarModel.PTy0 + AviarModel.PTywy * 2 + AviarModel.PTya * 1 ∧
      AviarModel.C_z 3 = AviarModel.PTzwz * 3 :=
  presets_use_base_formulas AviarModel (by simp [presetModels]) 1 2 2 3

/-- Claim C8: for every model instance (including the extreme
`JankieModel`) and all real inputs, each coefficient function yields a
unique well-defined real value — the pure, total shallow embedding of the
Python methods, which perform only float arithmetic, never raise, and
never write to any field. -/
theorem coefficient_functions_total :
    ∀ (m : Model) (alpha wx wy wz : ℝ),
      (∃! y : ℝ, m.C_lift alpha = y) ∧
        (∃! y : ℝ, m.C_drag alpha = y) ∧
        (∃! y : ℝ, m.C_x wx wz = y) ∧
        (∃! y : ℝ, m.C_y alpha wy = y) ∧
        (∃! y : ℝ, m.C_z wz = y) :=
  fun _ _ _ _ _ =>
    ⟨⟨_, rfl, fun _ h => h.symm⟩, ⟨_, rfl, fun _ h => h.symm⟩,
      ⟨_, rfl, fun _ h => h.symm⟩, ⟨_, rfl, fun _ h => h.symm⟩,
      ⟨_, rfl, fun _ h => h.symm⟩⟩

/-- Claim C8, witness: the totality theorem applied to the default model at
concrete inputs. -/
theorem coefficient_functions_total_default :
    ∃! y : ℝ, Model.default.C_lift 1 = y :=
  (coefficient_functions_total Model.default 1 0 0 0).1

/-- Claim C9: every preset subclass leaves `PDa`, `PTxwx`, `PTxwz`,
`PTywy`, `PTzwz`, and `alpha_0` at the base defaults; consequently `C_x`
and `C_z` agree with the default model on all inputs for every preset, and
`HummelModel` is parameter-for-parameter identical to the default
`Model`. -/
theorem presets_keep_unoverridden_defaults :
    (∀ p ∈ presetModels,
      p.PDa = Model.default.PDa ∧ p.PTxwx = Model.default.PTxwx ∧
        p.PTxwz = Model.default.PTxwz ∧ p.PTywy = Model.default.PTywy ∧
        p.PTzwz = Model.default.PTzwz ∧ p.alpha_0 = Model.default.alpha_0) ∧
      (∀ p ∈ presetModels, ∀ wx wz : ℝ,
        p.C_x wx wz = Model.default.C_x wx wz ∧
          p.C_z wz = Model.default.C_z wz) ∧
      HummelModel = Model.default := by
  refine ⟨fun p hp => ?_, fun p hp wx wz => ?_, rfl⟩
  · simp only [presetModels, List.mem_cons, List.not_mem_nil, or_false] at hp
    rcases hp with rfl | rfl | rfl | rfl | rfl | rfl | rfl | rfl | rfl <;>
      exact ⟨rfl, rfl, rfl, rfl, rfl, rfl⟩
  · simp only [presetModels, List.mem_cons, List.not_mem_nil, or_false] at hp
    rcases hp with rfl | rfl | rfl | rfl | rfl | rfl | rfl | rfl | rfl <;>
      exact ⟨rfl, rfl⟩

/-- Claim C9, witness: the theorem's membership hypotheses discharged at
the concrete preset `BuzzModel`, with the function-agreement part applied
at concrete angular velocities. -/
theorem presets_keep_unoverridden_defaults_buzz :
    BuzzModel.PDa = Model.default.PDa ∧
      BuzzModel.C_x 1 2 = Model.default.C_x 1 2 :=
  ⟨(presets_keep_unoverridden_defaults.1 BuzzModel (by simp [presetModels])).1,
    (presets_keep_unoverridden_defaults.2.1 BuzzModel
      (by simp [presetModels]) 1 2).1⟩

/-- Claim C10: for every model instance and every real `ε`, the drag
coefficient is symmetric about the zero-lift angle of attack:
`C_drag (alpha_0 + ε) = C_drag (alpha_0 - ε)`. -/
theorem C_drag_symmetric (m : Model) (ε : ℝ) :
    m.C_drag (m.alpha_0 + ε) = m.C_drag (m.alpha_0 - ε) := by
  simp only [Model.C_drag]
  ring

end FrisPy
